import Mathlib

/-!
Shallow embedding of the `SecureBucket` construct from
`src/lib/secure-bucket.ts` (the full-featured variant).

The construct is evaluated once at synthesis time: it validates its
props, then deterministically produces a set of resource descriptors
(KMS key and alias, access-log bucket, main bucket, bucket-policy
statements, GitHub OIDC role, CloudWatch log group, stack outputs).
We model that single synchronous pass as a pure function
`resolve : SecureBucketProps → Except String Resolved`.

TypeScript conventions carried over faithfully:
  * an optional prop is an `Option`;
  * `x !== false` on an optional boolean is `x != some false`;
  * truthiness of an optional string (`if (props.githubRepo)`) is
    `some s` with `s` non-empty;
  * `s || defaultValue` on a string is "default when absent or empty";
  * truthiness of an object reference (`props.encryptionKey`) is
    `Option.isSome` (objects are always truthy);
  * `arr || defaultArr` on an optional array is `Option.getD`
    (arrays, even empty ones, are truthy).
Opaque third-party handles (an `IKey`, a `CorsRule`) are carried as
strings: the code never inspects them.
-/

namespace SecureBucketCdk

/-- TS truthiness of an optional string: present and non-empty. -/
def strTruthy : Option String → Bool
  | none => false
  | some s => s != ""

/-- TS `s || d` defaulting for an optional string prop: the default is
taken when the prop is absent or the empty string. -/
def strOrDefault (o : Option String) (d : String) : String :=
  match o with
  | none => d
  | some s => if s = "" then d else s

/-- Storage classes used by the default production lifecycle rule
(`s3.StorageClass.INFREQUENT_ACCESS / GLACIER / DEEP_ARCHIVE`). -/
inductive StorageClass : Type
  | infrequentAccess
  | glacier
  | deepArchive
deriving DecidableEq, Repr

/-- One storage-class transition of a lifecycle rule; `transitionAfter`
is `Duration.days` flattened to the day count. -/
structure Transition where
  storageClass : StorageClass
  transitionAfter : Nat
deriving DecidableEq, Repr

/-- The fields of `s3.LifecycleRule` that this repository reads or
writes; durations are day counts. -/
structure LifecycleRule where
  id : Option String := none
  enabled : Option Bool := none
  expiration : Option Nat := none
  abortIncompleteMultipartUploadAfter : Option Nat := none
  noncurrentVersionExpiration : Option Nat := none
  transitions : Option (List Transition) := none
deriving DecidableEq, Repr

/-- Values of `s3.BucketEncryption` the construct can select. -/
inductive BucketEncryption : Type
  | unencrypted
  | s3Managed
  | kms
deriving DecidableEq, Repr

/-- The four flags of `s3.BlockPublicAccess`. -/
structure BlockPublicAccess where
  blockPublicAcls : Bool
  blockPublicPolicy : Bool
  ignorePublicAcls : Bool
  restrictPublicBuckets : Bool
deriving DecidableEq, Repr

/-- Embedding of `s3.BlockPublicAccess.BLOCK_ALL`. -/
def blockAll : BlockPublicAccess :=
  { blockPublicAcls := true
    blockPublicPolicy := true
    ignorePublicAcls := true
    restrictPublicBuckets := true }

/-- The ARNs a policy statement of this construct can reference:
`this.bucket.bucketArn` and `this.bucket.arnForObjects(star)`. -/
inductive ResourceRef : Type
  | bucketArn
  | objectsArn
deriving DecidableEq, Repr

/-- One entry of a statement's `conditions` map: operator, condition
key and expected value. -/
structure PolicyCondition where
  op : String
  key : String
  value : String
deriving DecidableEq, Repr

/-- An `iam.PolicyStatement` as this construct builds them: all are
Deny statements with `AnyPrincipal` (rendered "*"). -/
structure PolicyStatement where
  sid : String
  effect : String
  principal : String
  actions : List String
  resources : List ResourceRef
  conditions : List PolicyCondition
deriving DecidableEq, Repr

/-- The `SecureBucketProps` interface of the source. Optional props
are `Option`; `encryptionKey` and `corsRules` entries are opaque
handles carried as strings. -/
structure SecureBucketProps where
  projectId : String
  bucketNameSuffix : Option String := none
  enableVersioning : Option Bool := none
  enableEncryption : Option Bool := none
  githubRepo : Option String := none
  allowedBranches : Option (List String) := none
  environment : Option String := none
  enableAccessLogging : Option Bool := none
  accessLogBucket : Option String := none
  lifecycleRules : Option (List LifecycleRule) := none
  corsRules : Option (List String) := none
  publicReadAccess : Option Bool := none
  additionalPrincipals : Option (List String) := none
  encryptionKey : Option String := none
  enableIntelligentTiering : Option Bool := none
  transferAcceleration : Option Bool := none
deriving DecidableEq, Repr

/-- Character class `[a-z0-9-]` of the projectId pattern
(`Char.isLower` is exactly the ASCII range a-z). -/
def isProjectIdChar (c : Char) : Bool :=
  Char.isLower c || Char.isDigit c || c == '-'

/-- Pattern `^[a-z0-9-]+$` applied to a string. -/
def projectIdPattern (s : String) : Bool :=
  !s.isEmpty && s.toList.all isProjectIdChar

/-- Character class `[a-zA-Z0-9_.-]` of the githubRepo pattern. -/
def isRepoChar (c : Char) : Bool :=
  Char.isAlpha c || Char.isDigit c || c == '_' || c == '.' || c == '-'

/-- The regex from the source applied to a string: one slash separating
two non-empty runs of `[a-zA-Z0-9_.-]` characters. Since the slash is
not in the character class, this is exactly the regex's language. -/
def githubRepoPattern (s : String) : Bool :=
  match s.toList.splitOn '/' with
  | [org, repo] =>
      !org.isEmpty && !repo.isEmpty && org.all isRepoChar && repo.all isRepoChar
  | _ => false

/-- Check `!props.projectId || props.projectId.trim() === ''`: the string is
empty or trims to empty, i.e. every character is whitespace. -/
def isBlankString (s : String) : Bool :=
  s == "" || s.toList.all Char.isWhitespace

/-- Embedding of `SecureBucket.validateProps`: returns the message of the first
failing check, or `none` when all checks pass. -/
def validateProps (props : SecureBucketProps) : Option String :=
  if isBlankString props.projectId then
    some "projectId is required and cannot be empty"
  else if props.projectId.length > 20 then
    some "projectId must be 20 characters or less"
  else if !projectIdPattern props.projectId then
    some "projectId must contain only lowercase letters, numbers, and hyphens"
  else if strTruthy props.githubRepo && !githubRepoPattern (props.githubRepo.getD "") then
    some "githubRepo must be in format \"organization/repository\""
  else
    none

/-- Guard `props.enableEncryption !== false` under which the
constructor creates the internal KMS key and alias. -/
def encryptionEnabled (props : SecureBucketProps) : Bool :=
  props.enableEncryption != some false

/-- Embedding of `SecureBucket.getEncryptionConfiguration`; `internalKeyCreated`
stands for `this.encryptionKey` being set at call time. -/
def getEncryptionConfiguration (props : SecureBucketProps)
    (internalKeyCreated : Bool) : BucketEncryption :=
  if props.enableEncryption == some false then
    BucketEncryption.unencrypted
  else if props.encryptionKey.isSome || internalKeyCreated then
    BucketEncryption.kms
  else
    BucketEncryption.s3Managed

/-- Embedding of `SecureBucket.getPublicAccessConfiguration`. -/
def getPublicAccessConfiguration (props : SecureBucketProps) : BlockPublicAccess :=
  if props.publicReadAccess == some true then
    { blockPublicAcls := true
      blockPublicPolicy := false
      ignorePublicAcls := true
      restrictPublicBuckets := false }
  else
    blockAll

/-- The single default rule returned for `environment === 'prod'`. -/
def productionLifecycleRule : LifecycleRule :=
  { id := some "production-lifecycle"
    enabled := some true
    abortIncompleteMultipartUploadAfter := some 7
    noncurrentVersionExpiration := some 365
    transitions := some
      [ { storageClass := StorageClass.infrequentAccess, transitionAfter := 30 }
      , { storageClass := StorageClass.glacier, transitionAfter := 90 }
      , { storageClass := StorageClass.deepArchive, transitionAfter := 365 } ] }

/-- The single default rule returned for every other environment. -/
def developmentLifecycleRule : LifecycleRule :=
  { id := some "development-lifecycle"
    enabled := some true
    expiration := some 30
    abortIncompleteMultipartUploadAfter := some 1
    noncurrentVersionExpiration := some 7 }

/-- Embedding of `SecureBucket.getLifecycleRules`. -/
def getLifecycleRules (props : SecureBucketProps) (environment : String) :
    List LifecycleRule :=
  match props.lifecycleRules with
  | some rules => rules
  | none =>
      if environment == "prod" then [productionLifecycleRule]
      else [developmentLifecycleRule]

/-- The `DenyInsecureConnections` statement pushed onto the local
`policyStatements` array. -/
def denyInsecureStatement : PolicyStatement :=
  { sid := "DenyInsecureConnections"
    effect := "Deny"
    principal := "*"
    actions := ["s3:*"]
    resources := [ResourceRef.bucketArn, ResourceRef.objectsArn]
    conditions := [⟨"Bool", "aws:SecureTransport", "false"⟩] }

/-- The `DenyUnencryptedUploads` statement pushed when encryption is
enabled; the expected header value depends on `this.encryptionKey`. -/
def denyUnencryptedStatement (internalKeyCreated : Bool) : PolicyStatement :=
  { sid := "DenyUnencryptedUploads"
    effect := "Deny"
    principal := "*"
    actions := ["s3:PutObject"]
    resources := [ResourceRef.objectsArn]
    conditions :=
      [⟨"StringNotEquals", "s3:x-amz-server-side-encryption",
        if internalKeyCreated then "aws:kms" else "AES256"⟩] }

/-- The `CombinedSecurityPolicy` statement that
`createBucketPolicy` actually passes to `addToResourcePolicy`. -/
def combinedSecurityStatement : PolicyStatement :=
  { sid := "CombinedSecurityPolicy"
    effect := "Deny"
    principal := "*"
    actions := ["s3:*"]
    resources := [ResourceRef.bucketArn, ResourceRef.objectsArn]
    conditions := [⟨"Bool", "aws:SecureTransport", "false"⟩] }

/-- Embedding of `SecureBucket.createBucketPolicy`: returns the locally built
`policyStatements` array together with the statements actually attached
to the bucket's resource policy. The source builds the array, then — in
the `if (policyStatements.length > 0)` block — attaches only the single
fresh `CombinedSecurityPolicy` statement. -/
def createBucketPolicy (props : SecureBucketProps) (internalKeyCreated : Bool) :
    List PolicyStatement × List PolicyStatement :=
  let built :=
    [denyInsecureStatement] ++
      (if encryptionEnabled props then [denyUnencryptedStatement internalKeyCreated] else [])
  let applied := if built.length > 0 then [combinedSecurityStatement] else []
  (built, applied)

/-- The GitHub OIDC role descriptor produced by
`createGitHubOidcIntegration`: role name, trust-policy audience and
subject conditions, and the two capability grants. -/
structure OidcRole where
  roleName : String
  audCondition : String
  subConditions : List String
  grantsBucketReadWrite : Bool
  grantsKeyEncryptDecrypt : Bool
deriving DecidableEq, Repr

/-- Embedding of `SecureBucket.createGitHubOidcIntegration` (invoked only when
`props.githubRepo` is truthy); `internalKeyCreated` stands for
`this.encryptionKey`. -/
def createGitHubOidcIntegration (props : SecureBucketProps)
    (environment : String) (internalKeyCreated : Bool) : OidcRole :=
  let branches := props.allowedBranches.getD ["main", "develop"]
  { roleName :=
      props.projectId ++ "-" ++ strOrDefault props.bucketNameSuffix "secure-bucket"
        ++ "-" ++ environment ++ "-github-oidc-role"
    audCondition := "sts.amazonaws.com"
    subConditions :=
      branches.map (fun b => "repo:" ++ props.githubRepo.getD "" ++ ":ref:refs/heads/" ++ b)
    grantsBucketReadWrite := true
    grantsKeyEncryptDecrypt := internalKeyCreated }

/-- One `CfnOutput`: its logical id and its export name. -/
structure StackOutput where
  key : String
  exportName : String
deriving DecidableEq, Repr

/-- Embedding of `SecureBucket.createOutputs`. -/
def createOutputs (props : SecureBucketProps) (environment : String)
    (hasKey hasRole : Bool) : List StackOutput :=
  let p :=
    props.projectId ++ "-" ++ strOrDefault props.bucketNameSuffix "secure-bucket"
      ++ "-" ++ environment
  [⟨"BucketName", p ++ "-BucketName"⟩, ⟨"BucketArn", p ++ "-BucketArn"⟩]
    ++ (if hasKey then [⟨"EncryptionKeyArn", p ++ "-EncryptionKeyArn"⟩] else [])
    ++ (if hasRole then [⟨"GitHubOidcRoleArn", p ++ "-GitHubOidcRoleArn"⟩] else [])
    ++ [⟨"LogGroupName", p ++ "-LogGroupName"⟩]

/-- The internal `kms.Key` descriptor. -/
structure InternalKey where
  description : String
  enableKeyRotation : Bool
deriving DecidableEq, Repr

/-- The internal access-log `s3.Bucket` descriptor. -/
structure AccessLogBucket where
  bucketName : String
  encryption : BucketEncryption
  blockPublicAccess : BlockPublicAccess
  lifecycleRules : List LifecycleRule
deriving DecidableEq, Repr

/-- The main `s3.Bucket` descriptor: the props the constructor passes
to `new s3.Bucket(this, 'Bucket', ...)`. `boundToInternalKey` records
the `encryptionKey: this.encryptionKey` binding. -/
structure MainBucket where
  bucketName : String
  versioned : Bool
  encryption : BucketEncryption
  boundToInternalKey : Bool
  blockPublicAccess : BlockPublicAccess
  serverAccessLogsBucket : Option String
  serverAccessLogsPrefix : Option String
  lifecycleRules : List LifecycleRule
  cors : Option (List String)
  transferAcceleration : Option Bool
  intelligentTiering : Bool
deriving DecidableEq, Repr

/-- The `logs.LogGroup` descriptor; `RetentionDays.SIX_MONTHS` is 180
days. -/
structure LogGroup where
  logGroupName : String
  retentionDays : Nat
deriving DecidableEq, Repr

/-- Everything one `SecureBucket` instantiation produces. -/
structure Resolved where
  bucketName : String
  internalKey : Option InternalKey
  keyAlias : Option String
  accessLogBucket : Option AccessLogBucket
  mainBucket : MainBucket
  builtPolicyStatements : List PolicyStatement
  appliedPolicyStatements : List PolicyStatement
  githubOidcRole : Option OidcRole
  logGroup : LogGroup
  outputs : List StackOutput
deriving DecidableEq, Repr

/-- The 90-day expiration rule of the internal access-log bucket. -/
def accessLogsLifecycleRule : LifecycleRule :=
  { id := some "access-logs-lifecycle"
    enabled := some true
    expiration := some 90 }

/-- The success path of the constructor: everything after
`validateProps` returns. -/
def resolveOk (props : SecureBucketProps) : Resolved :=
  let environment := strOrDefault props.environment "dev"
  let suffix := strOrDefault props.bucketNameSuffix "secure-bucket"
  let bucketName := props.projectId ++ "-" ++ suffix ++ "-" ++ environment
  let internalKeyCreated := encryptionEnabled props
  let internalKey : Option InternalKey :=
    if internalKeyCreated then
      some { description := "KMS key for " ++ props.projectId ++ " S3 bucket encryption"
             enableKeyRotation := true }
    else none
  let keyAlias : Option String :=
    if internalKeyCreated then
      some ("alias/" ++ props.projectId ++ "-s3-" ++ environment)
    else none
  let logBucketCreated :=
    props.enableAccessLogging != some false && !strTruthy props.accessLogBucket
  let accessLog : Option AccessLogBucket :=
    if logBucketCreated then
      some { bucketName := bucketName ++ "-access-logs"
             encryption := BucketEncryption.s3Managed
             blockPublicAccess := blockAll
             lifecycleRules := [accessLogsLifecycleRule] }
    else none
  let policy := createBucketPolicy props internalKeyCreated
  let role : Option OidcRole :=
    if strTruthy props.githubRepo then
      some (createGitHubOidcIntegration props environment internalKeyCreated)
    else none
  { bucketName := bucketName
    internalKey := internalKey
    keyAlias := keyAlias
    accessLogBucket := accessLog
    mainBucket :=
      { bucketName := bucketName
        versioned := props.enableVersioning != some false
        encryption := getEncryptionConfiguration props internalKeyCreated
        boundToInternalKey := internalKeyCreated
        blockPublicAccess := getPublicAccessConfiguration props
        serverAccessLogsBucket := accessLog.map (fun b => b.bucketName)
        serverAccessLogsPrefix :=
          if strTruthy props.accessLogBucket then none else some "access-logs/"
        lifecycleRules := getLifecycleRules props environment
        cors := props.corsRules
        transferAcceleration := props.transferAcceleration
        intelligentTiering := props.enableIntelligentTiering == some true }
    builtPolicyStatements := policy.1
    appliedPolicyStatements := policy.2
    githubOidcRole := role
    logGroup := { logGroupName := "/aws/s3/" ++ bucketName, retentionDays := 180 }
    outputs := createOutputs props environment internalKeyCreated role.isSome }

/-- The constructor of `SecureBucket`: validation first (throwing the
first failing check's message), then the resource-producing pass. -/
def resolve (props : SecureBucketProps) : Except String Resolved :=
  match validateProps props with
  | some e => Except.error e
  | none => Except.ok (resolveOk props)

/-- Spec-side transcription, for the refinement check of the validator:
the four checks of the spec's validator contract, in the spec's order,
each paired with its error message. -/
def specValidationChecks (p : SecureBucketProps) : List (Bool × String) :=
  [ (isBlankString p.projectId,
     "projectId is required and cannot be empty")
  , (decide (p.projectId.length > 20),
     "projectId must be 20 characters or less")
  , (!projectIdPattern p.projectId,
     "projectId must contain only lowercase letters, numbers, and hyphens")
  , (strTruthy p.githubRepo && !githubRepoPattern (p.githubRepo.getD ""),
     "githubRepo must be in format \"organization/repository\"") ]

/-- Spec-side first-failure-wins evaluation of an ordered check list. -/
def firstFailing : List (Bool × String) → Option String
  | [] => none
  | (b, m) :: rest => if b then some m else firstFailing rest

/-- The conjunction of the three projectId-only validation checks:
non-blank, length at most 20, and matching the pattern. -/
def projectIdValid (s : String) : Bool :=
  !isBlankString s && decide (s.length ≤ 20) && projectIdPattern s

/-- The deterministic stack-output export-name base
`projectId-suffix-environment`. -/
def exportBase (p : SecureBucketProps) : String :=
  p.projectId ++ "-" ++ strOrDefault p.bucketNameSuffix "secure-bucket"
    ++ "-" ++ strOrDefault p.environment "dev"

end SecureBucketCdk

open SecureBucketCdk

theorem resolve_ok_iff (p : SecureBucketProps) (r : Resolved) :
    resolve p = Except.ok r ↔ validateProps p = none ∧ r = resolveOk p := by
  unfold resolve
  cases h : validateProps p <;> simp [h, eq_comm]

theorem resolve_error_iff (p : SecureBucketProps) (e : String) :
    resolve p = Except.error e ↔ validateProps p = some e := by
  unfold resolve
  cases h : validateProps p <;> simp [h]

/-- C4: validation is a pure check run before any resource is produced
and fails with exactly the first matching error, in the order: blank
projectId, projectId longer than 20 characters, projectId not matching
the lowercase pattern, and githubRepo present but not matching the
org/repo pattern, each with its fixed message; on any validation error
the resolution produces no resource descriptors at all. -/
theorem c4_validation_order_messages_and_no_resources (p : SecureBucketProps) :
    validateProps p = firstFailing (specValidationChecks p) ∧
    (∀ e, validateProps p = some e → resolve p = Except.error e) ∧
    (∀ r, resolve p = Except.ok r → validateProps p = none) := by
  refine ⟨?_, ?_, ?_⟩
  · unfold validateProps specValidationChecks
    split_ifs <;> simp_all [firstFailing]
    all_goals rw [if_neg (by omega)]
    all_goals split_ifs <;> simp_all
  · intro e he
    exact (resolve_error_iff p e).mpr he
  · intro r hr
    exact ((resolve_ok_iff p r).mp hr).1

/-- Witness for C4 at a concrete invalid input. -/
theorem c4_validation_witness :
    validateProps { projectId := "Invalid_Project_ID" } =
      firstFailing (specValidationChecks { projectId := "Invalid_Project_ID" }) ∧
    resolve { projectId := "Invalid_Project_ID" } =
      Except.error "projectId must contain only lowercase letters, numbers, and hyphens" :=
  ⟨(c4_validation_order_messages_and_no_resources _).1,
   (c4_validation_order_messages_and_no_resources _).2.1 _ (by decide)⟩

/-- C5: when enableEncryption is explicitly false — whatever the
encryptionKey prop — the selected encryption mode is unencrypted, no
internal key and no key alias are created, and the
deny-unencrypted-upload statement appears neither among the built nor
among the attached policy statements. -/
theorem c5_encryption_disabled_invariant (p : SecureBucketProps) (r : Resolved)
    (hok : resolve p = Except.ok r) (henc : p.enableEncryption = some false) :
    r.mainBucket.encryption = BucketEncryption.unencrypted ∧
    r.internalKey = none ∧
    r.keyAlias = none ∧
    (∀ s ∈ r.builtPolicyStatements, s.sid ≠ "DenyUnencryptedUploads") ∧
    (∀ s ∈ r.appliedPolicyStatements, s.sid ≠ "DenyUnencryptedUploads") := by
  obtain ⟨hval, rfl⟩ := (resolve_ok_iff p r).mp hok
  have hdis : encryptionEnabled p = false := by
    simp [encryptionEnabled, henc]
  refine ⟨?_, ?_, ?_, ?_, ?_⟩ <;>
    simp_all [resolveOk, createBucketPolicy, getEncryptionConfiguration, henc,
      denyInsecureStatement, combinedSecurityStatement]

/-- Witness for C5 at a concrete input that disables encryption while
supplying a caller key. -/
theorem c5_encryption_disabled_witness :
    (resolveOk { projectId := "test-project", enableEncryption := some false,
                 encryptionKey := some "caller-key" }).mainBucket.encryption =
      BucketEncryption.unencrypted ∧
    (resolveOk { projectId := "test-project", enableEncryption := some false,
                 encryptionKey := some "caller-key" }).internalKey = none := by
  have h := c5_encryption_disabled_invariant
    { projectId := "test-project", enableEncryption := some false,
      encryptionKey := some "caller-key" }
    (resolveOk { projectId := "test-project", enableEncryption := some false,
                 encryptionKey := some "caller-key" })
    (by rfl) (by rfl)
  exact ⟨h.1, h.2.1⟩

/-- C6: lifecycle-rule resolution uses caller rules verbatim when
supplied; else for environment "prod" exactly one rule with 7-day
multipart abort, 365-day noncurrent expiration and transitions at the
strictly increasing thresholds 30 (infrequent access) < 90 (archive) <
365 (deep archive); else exactly one rule with 30-day expiration, 1-day
multipart abort, 7-day noncurrent expiration and no transitions. -/
theorem c6_lifecycle_rule_resolution (p : SecureBucketProps) (env : String) :
    (∀ rs, p.lifecycleRules = some rs → getLifecycleRules p env = rs) ∧
    (p.lifecycleRules = none → env = "prod" →
      getLifecycleRules p env = [productionLifecycleRule] ∧
      productionLifecycleRule.abortIncompleteMultipartUploadAfter = some 7 ∧
      productionLifecycleRule.noncurrentVersionExpiration = some 365 ∧
      productionLifecycleRule.expiration = none ∧
      productionLifecycleRule.transitions = some
        [ ⟨StorageClass.infrequentAccess, 30⟩
        , ⟨StorageClass.glacier, 90⟩
        , ⟨StorageClass.deepArchive, 365⟩ ] ∧
      (30 < 90 ∧ 90 < 365)) ∧
    (p.lifecycleRules = none → env ≠ "prod" →
      getLifecycleRules p env = [developmentLifecycleRule] ∧
      developmentLifecycleRule.expiration = some 30 ∧
      developmentLifecycleRule.abortIncompleteMultipartUploadAfter = some 1 ∧
      developmentLifecycleRule.noncurrentVersionExpiration = some 7 ∧
      developmentLifecycleRule.transitions = none) := by
  refine ⟨?_, ?_, ?_⟩
  · intro rs hrs
    simp [getLifecycleRules, hrs]
  · intro hnone henv
    subst henv
    refine ⟨by simp [getLifecycleRules, hnone], by decide, by decide, by decide, by decide, by decide⟩
  · intro hnone henv
    have : (env == "prod") = false := by
      simp [henv]
    refine ⟨by simp [getLifecycleRules, hnone, this], by decide, by decide, by decide, by decide⟩

/-- Witness for C6 in the production branch at a concrete input. -/
theorem c6_lifecycle_witness :
    getLifecycleRules { projectId := "test-project" } "prod" = [productionLifecycleRule] :=
  ((c6_lifecycle_rule_resolution { projectId := "test-project" } "prod").2.1 rfl rfl).1

/-- C7: if publicReadAccess is true the resolved flags are exactly
(blockPublicAcls true, blockPublicPolicy false, ignorePublicAcls true,
restrictPublicBuckets false); otherwise — absent or false — all four
flags are true. -/
theorem c7_public_access_resolution (p : SecureBucketProps) (r : Resolved)
    (hok : resolve p = Except.ok r) :
    (p.publicReadAccess = some true →
      r.mainBucket.blockPublicAccess =
        { blockPublicAcls := true, blockPublicPolicy := false,
          ignorePublicAcls := true, restrictPublicBuckets := false }) ∧
    (p.publicReadAccess ≠ some true →
      r.mainBucket.blockPublicAccess =
        { blockPublicAcls := true, blockPublicPolicy := true,
          ignorePublicAcls := true, restrictPublicBuckets := true }) := by
  obtain ⟨hval, rfl⟩ := (resolve_ok_iff p r).mp hok
  constructor
  · intro h
    simp [resolveOk, getPublicAccessConfiguration, h]
  · intro h
    simp [resolveOk, getPublicAccessConfiguration, h, blockAll]

/-- Witness for C7 at a concrete input enabling public read access. -/
theorem c7_public_access_witness :
    (resolveOk { projectId := "test-project", publicReadAccess := some true
                 }).mainBucket.blockPublicAccess =
      { blockPublicAcls := true, blockPublicPolicy := false,
        ignorePublicAcls := true, restrictPublicBuckets := false } :=
  (c7_public_access_resolution
    { projectId := "test-project", publicReadAccess := some true }
    (resolveOk { projectId := "test-project", publicReadAccess := some true })
    (by rfl)).1 rfl

/-- C8: exactly when githubRepo is truthy one OIDC role is produced;
its subject-claim conditions are the allowedBranches entries mapped in
order through the fixed repo-branch template (defaulting to the main
and develop entries when allowedBranches is unset); its role name is
projectId-suffix-environment-github-oidc-role; it is granted read/write
on the main bucket and encrypt/decrypt on the encryption key exactly
when one exists. -/
theorem c8_github_oidc_role (p : SecureBucketProps) (r : Resolved)
    (hok : resolve p = Except.ok r) :
    (strTruthy p.githubRepo = false → r.githubOidcRole = none) ∧
    (strTruthy p.githubRepo = true →
      ∃ role, r.githubOidcRole = some role ∧
        role.subConditions =
          (p.allowedBranches.getD ["main", "develop"]).map
            (fun b => "repo:" ++ p.githubRepo.getD "" ++ ":ref:refs/heads/" ++ b) ∧
        (p.allowedBranches = none →
          role.subConditions =
            [ "repo:" ++ p.githubRepo.getD "" ++ ":ref:refs/heads/main"
            , "repo:" ++ p.githubRepo.getD "" ++ ":ref:refs/heads/develop" ]) ∧
        role.roleName =
          p.projectId ++ "-" ++ strOrDefault p.bucketNameSuffix "secure-bucket"
            ++ "-" ++ strOrDefault p.environment "dev" ++ "-github-oidc-role" ∧
        role.audCondition = "sts.amazonaws.com" ∧
        role.grantsBucketReadWrite = true ∧
        role.grantsKeyEncryptDecrypt = r.internalKey.isSome) := by
  obtain ⟨hval, rfl⟩ := (resolve_ok_iff p r).mp hok
  constructor
  · intro h
    simp [resolveOk, h]
  · intro h
    refine ⟨createGitHubOidcIntegration p (strOrDefault p.environment "dev")
      (encryptionEnabled p), ?_, ?_, ?_, ?_, ?_, ?_, ?_⟩
    · simp [resolveOk, h]
    · simp [createGitHubOidcIntegration]
    · intro hnone
      simp [createGitHubOidcIntegration, hnone, String.append_assoc]
    · simp [createGitHubOidcIntegration]
    · simp [createGitHubOidcIntegration]
    · simp [createGitHubOidcIntegration]
    · cases henc : encryptionEnabled p <;>
        simp [createGitHubOidcIntegration, resolveOk, henc]

/-- Witness for C8 at a concrete input with default branches. -/
theorem c8_github_oidc_witness :
    ∃ role,
      (resolveOk { projectId := "test-project", githubRepo := some "octo/repo"
                   }).githubOidcRole = some role ∧
      role.subConditions =
        [ "repo:octo/repo:ref:refs/heads/main"
        , "repo:octo/repo:ref:refs/heads/develop" ] ∧
      role.roleName = "test-project-secure-bucket-dev-github-oidc-role" := by
  obtain ⟨role, hrole, hsub, hdef, hname, haud, hrw, hkms⟩ :=
    (c8_github_oidc_role { projectId := "test-project", githubRepo := some "octo/repo" }
      (resolveOk { projectId := "test-project", githubRepo := some "octo/repo" })
      (by rfl)).2 (by decide)
  exact ⟨role, hrole, by simpa using hdef rfl, by simpa using hname⟩

/-- C10 (implicit, from the code): whenever enableEncryption is not
explicitly false an internal KMS key with rotation enabled and its
alias are created even if the caller supplied encryptionKey, the main
bucket's encryption mode is kms and the bucket is bound to the internal
key; in particular the s3-managed mode is never selected for the main
bucket when encryption is enabled. -/
theorem c10_internal_key_always_created (p : SecureBucketProps) (r : Resolved)
    (hok : resolve p = Except.ok r) (henc : encryptionEnabled p = true) :
    r.internalKey =
      some { description := "KMS key for " ++ p.projectId ++ " S3 bucket encryption"
             enableKeyRotation := true } ∧
    r.keyAlias =
      some ("alias/" ++ p.projectId ++ "-s3-" ++ strOrDefault p.environment "dev") ∧
    r.mainBucket.encryption = BucketEncryption.kms ∧
    r.mainBucket.encryption ≠ BucketEncryption.s3Managed ∧
    r.mainBucket.boundToInternalKey = true := by
  obtain ⟨hval, rfl⟩ := (resolve_ok_iff p r).mp hok
  have hne : ¬p.enableEncryption = some false := by
    simpa [encryptionEnabled] using henc
  refine ⟨?_, ?_, ?_, ?_, ?_⟩ <;>
    simp [resolveOk, getEncryptionConfiguration, henc, hne]

/-- Witness for C10 at a concrete input that supplies a caller key. -/
theorem c10_internal_key_witness :
    (resolveOk { projectId := "test-project", encryptionKey := some "caller-key"
                 }).internalKey =
      some { description := "KMS key for test-project S3 bucket encryption"
             enableKeyRotation := true } ∧
    (resolveOk { projectId := "test-project", encryptionKey := some "caller-key"
                 }).mainBucket.encryption = BucketEncryption.kms := by
  have h := c10_internal_key_always_created
    { projectId := "test-project", encryptionKey := some "caller-key" }
    (resolveOk { projectId := "test-project", encryptionKey := some "caller-key" })
    (by rfl) (by decide)
  exact ⟨h.1, h.2.2.1⟩

/-- A minimal valid input: only the required projectId, everything else
defaulted. -/
def defaultInput : SecureBucketProps := { projectId := "test-project" }

/-- A valid input that names an external access-log bucket. -/
def externalLogInput : SecureBucketProps :=
  { projectId := "test-project", accessLogBucket := some "external-log-bucket" }

/-- A valid input that disables access logging. -/
def noLoggingInput : SecureBucketProps :=
  { projectId := "test-project", enableAccessLogging := some false }

/-- A valid input that supplies a caller encryption key. -/
def callerKeyInput : SecureBucketProps :=
  { projectId := "test-project", encryptionKey := some "caller-key" }

/-- A input with a valid projectId but a malformed githubRepo. -/
def invalidRepoInput : SecureBucketProps :=
  { projectId := "test-project", githubRepo := some "invalid-repo-format" }

/-- C1 (evaluation at the failing input): with encryption enabled by
default, the statement list actually attached to the bucket's resource
policy is exactly the single CombinedSecurityPolicy transport-deny
statement; the DenyUnencryptedUploads statement on s3:PutObject is
built into the local array but never attached, so no attached statement
covers s3:PutObject, contrary to the claim. -/
theorem c1_applied_policy_missing_putobject_deny :
    resolve defaultInput = Except.ok (resolveOk defaultInput) ∧
    encryptionEnabled defaultInput = true ∧
    (resolveOk defaultInput).builtPolicyStatements =
      [denyInsecureStatement, denyUnencryptedStatement true] ∧
    (resolveOk defaultInput).appliedPolicyStatements = [combinedSecurityStatement] ∧
    (∀ s ∈ (resolveOk defaultInput).appliedPolicyStatements,
      s.actions ≠ ["s3:PutObject"]) ∧
    denyUnencryptedStatement true ∉ (resolveOk defaultInput).appliedPolicyStatements ∧
    combinedSecurityStatement.actions = ["s3:*"] ∧
    combinedSecurityStatement.conditions = [⟨"Bool", "aws:SecureTransport", "false"⟩] :=
  ⟨rfl, by decide, by decide, by decide, by decide, by decide, by decide, by decide⟩

/-- C2 (evaluation at the failing inputs): with an external
accessLogBucket name the main bucket gets no server-access-logging
target at all and no prefix (the external name is never wired), and
with enableAccessLogging explicitly false the main bucket still carries
the server-access-logs prefix "access-logs/", while the internal-bucket
branch (defaults) sets the prefix the claim reserves for the external
branch. -/
theorem c2_access_log_resolution_diverges :
    resolve externalLogInput = Except.ok (resolveOk externalLogInput) ∧
    (resolveOk externalLogInput).accessLogBucket = none ∧
    (resolveOk externalLogInput).mainBucket.serverAccessLogsBucket = none ∧
    MainBucket.serverAccessLogsPrefix (resolveOk externalLogInput).mainBucket = none ∧
    resolve noLoggingInput = Except.ok (resolveOk noLoggingInput) ∧
    (resolveOk noLoggingInput).accessLogBucket = none ∧
    MainBucket.serverAccessLogsPrefix (resolveOk noLoggingInput).mainBucket =
      some "access-logs/" ∧
    (resolveOk defaultInput).accessLogBucket =
      some { bucketName := "test-project-secure-bucket-dev-access-logs"
             encryption := BucketEncryption.s3Managed
             blockPublicAccess := blockAll
             lifecycleRules := [accessLogsLifecycleRule] } ∧
    MainBucket.serverAccessLogsPrefix (resolveOk defaultInput).mainBucket =
      some "access-logs/" :=
  ⟨rfl, by decide, by decide, by decide, rfl, by decide, by decide, by decide, by decide⟩

/-- C3 (evaluation at the failing input): with a caller-supplied
encryptionKey and encryption enabled by default, an internal KMS key
with rotation and an alias are still created and the main bucket is
bound to the internal key, not the caller's. -/
theorem c3_caller_key_ignored :
    resolve callerKeyInput = Except.ok (resolveOk callerKeyInput) ∧
    (resolveOk callerKeyInput).internalKey =
      some { description := "KMS key for test-project S3 bucket encryption"
             enableKeyRotation := true } ∧
    (resolveOk callerKeyInput).keyAlias = some "alias/test-project-s3-dev" ∧
    (resolveOk callerKeyInput).mainBucket.boundToInternalKey = true ∧
    (resolveOk callerKeyInput).mainBucket.encryption = BucketEncryption.kms :=
  ⟨rfl, by decide, by decide, by decide, by decide⟩

/-- C9 counterexample: an input whose projectId passes every projectId
check still fails resolution, because its githubRepo is malformed — so
resolution does not succeed for every input with a valid projectId. -/
theorem c9_valid_projectid_resolution_fails :
    projectIdValid invalidRepoInput.projectId = true ∧
    resolve invalidRepoInput =
      Except.error "githubRepo must be in format \"organization/repository\"" :=
  ⟨by decide, rfl⟩

/-- C9 (amended): for every input that passes validation as a whole,
resolution succeeds, the bucket is named projectId-suffix-environment
(defaults secure-bucket and dev), one log group named from the bucket
name with 180-day retention is created, BucketName, BucketArn and
LogGroupName outputs are always emitted, the EncryptionKeyArn output
exactly when a key exists and the GitHubOidcRoleArn output exactly when
a role was created, all export names extending the
projectId-suffix-environment base. -/
theorem c9_resolution_and_outputs (p : SecureBucketProps)
    (hval : validateProps p = none) :
    ∃ r, resolve p = Except.ok r ∧
      r.bucketName = exportBase p ∧
      r.mainBucket.bucketName = r.bucketName ∧
      r.logGroup = { logGroupName := "/aws/s3/" ++ r.bucketName, retentionDays := 180 } ∧
      r.outputs =
        [ ⟨"BucketName", exportBase p ++ "-BucketName"⟩
        , ⟨"BucketArn", exportBase p ++ "-BucketArn"⟩ ]
        ++ (if r.internalKey.isSome then
              [⟨"EncryptionKeyArn", exportBase p ++ "-EncryptionKeyArn"⟩] else [])
        ++ (if r.githubOidcRole.isSome then
              [⟨"GitHubOidcRoleArn", exportBase p ++ "-GitHubOidcRoleArn"⟩] else [])
        ++ [⟨"LogGroupName", exportBase p ++ "-LogGroupName"⟩] := by
  refine ⟨resolveOk p, by simp [resolve, hval], rfl, rfl, rfl, ?_⟩
  cases henc : encryptionEnabled p <;> cases hgh : strTruthy p.githubRepo <;>
    simp [resolveOk, createOutputs, exportBase, henc, hgh]

/-- Witness for C9 (amended) at the minimal valid input. -/
theorem c9_resolution_witness :
    ∃ r, resolve defaultInput = Except.ok r ∧
      r.bucketName = exportBase defaultInput ∧
      r.mainBucket.bucketName = r.bucketName ∧
      r.logGroup = { logGroupName := "/aws/s3/" ++ r.bucketName, retentionDays := 180 } ∧
      r.outputs =
        [ ⟨"BucketName", exportBase defaultInput ++ "-BucketName"⟩
        , ⟨"BucketArn", exportBase defaultInput ++ "-BucketArn"⟩ ]
        ++ (if r.internalKey.isSome then
              [⟨"EncryptionKeyArn", exportBase defaultInput ++ "-EncryptionKeyArn"⟩] else [])
        ++ (if r.githubOidcRole.isSome then
              [⟨"GitHubOidcRoleArn", exportBase defaultInput ++ "-GitHubOidcRoleArn"⟩] else [])
        ++ [⟨"LogGroupName", exportBase defaultInput ++ "-LogGroupName"⟩] :=
  c9_resolution_and_outputs defaultInput (by decide)
